import Mathlib

/-!
# Verification of the UPD (universal transfer document) parser core

A shallow embedding of `src/upd_parser/parser.py`, covering the numeric
normalizers, the table-row classifier and column normalizer, the line-item
and totals builders, the page/document item-accumulation loop, the VAT-mode
detector and the cross-validator, together with theorems settling the frozen
claims about them.

Modelling conventions:
* Python `Decimal` values are embedded as `ℚ`: `Decimal` string arithmetic
  (`+`, `*`, `/`, `abs`, comparisons) on the values occurring here is exact
  decimal arithmetic, which `ℚ` reproduces without rounding.
* Table cells are `String`; a Python `None` cell is embedded as `""`, which
  behaves identically in every operation the code applies to cells
  (`_clean`, truthiness tests, `_parse_decimal`, `_parse_vat_rate_percent`).
* Python string whitespace handling (`str.strip`, `\s` in regexes) is
  modelled by `isPySpace`, covering the whitespace characters that can occur
  here (space, tab, CR, LF, vertical tab, form feed, no-break space).
* `str.lower` is modelled for ASCII and the Russian Cyrillic range, the only
  alphabets appearing in the classifier keywords.
* Human-readable error/warning/reason strings built with f-strings in the
  source are embedded as structured constructors (`VMsg`, `DetectionReason`)
  carrying exactly the interpolated data; the surrounding prose is fixed
  text and plays no role in the logic.
-/

/- The arithmetic on `ℚ` is hidden behind `@[irreducible]` markers upstream,
which blocks elaboration-time evaluation of ground terms (`decide`); the
marker is cosmetic for these definitions, so restore ordinary reducibility. -/
set_option allowUnsafeReducibility true in
attribute [semireducible] Rat.add Rat.sub Rat.mul Rat.inv Rat.ofScientific

/-- Python whitespace characters relevant here (`str.isspace` on the
characters that occur in these documents). -/
def isPySpace (c : Char) : Bool :=
  c == ' ' || c == '\t' || c == '\n' || c == '\r' ||
  c == '\x0b' || c == '\x0c' || c == ' '

/-- Python `str.strip()`: remove leading and trailing whitespace. -/
def pyStrip (s : String) : String :=
  String.mk (((s.toList.dropWhile isPySpace).reverse.dropWhile isPySpace).reverse)

/-- Collapse consecutive spaces to a single space (the list is assumed to
have had all whitespace mapped to `' '` first). -/
def squeezeSpaces : List Char → List Char
  | [] => []
  | [c] => [c]
  | a :: b :: rest =>
    if a == ' ' && b == ' ' then squeezeSpaces (b :: rest)
    else a :: squeezeSpaces (b :: rest)

/-- `_clean`: `re.sub(r"\s+", " ", text).strip()` — collapse whitespace runs
to a single space, then strip.  (`_clean(None)` in the source returns `""`;
`None` cells are embedded as `""`, on which this agrees.) -/
def _clean (text : String) : String :=
  pyStrip (String.mk (squeezeSpaces (text.toList.map fun c => if isPySpace c then ' ' else c)))

/-- Python `str.lower()` for ASCII letters and the Russian Cyrillic block
(А–Я and Ё), the only letters in the classifier keywords. -/
def pyLower (s : String) : String :=
  String.mk (s.toList.map fun c =>
    if 'A' ≤ c ∧ c ≤ 'Z' then Char.ofNat (c.toNat + 32)
    else if 'А' ≤ c ∧ c ≤ 'Я' then Char.ofNat (c.toNat + 32)
    else if c = 'Ё' then 'ё' else c)

/-- Numeric value of a digit string (`int` on a nonempty all-digit string). -/
def digitsVal (cs : List Char) : ℕ :=
  cs.foldl (fun a c => 10 * a + (c.toNat - 48)) 0

/-- Python `Decimal(s)` on strings over the alphabet `{digits, '.', '-'}` —
the only strings `_parse_decimal` ever passes to it (every other character
has been filtered out).  Accepts an optional leading `'-'`, then digits with
at most one `'.'` and at least one digit; anything else raises
`InvalidOperation`, embedded as `none`. -/
def decimalOfString? (s : String) : Option ℚ :=
  let cs := s.toList
  let neg := cs.headD ' ' == '-'
  let body := if neg then cs.tail else cs
  if body.all (fun c => c.isDigit || c == '.') && body.any Char.isDigit &&
      body.count '.' ≤ 1 then
    let intPart := body.takeWhile (fun c => c != '.')
    let fracPart := (body.dropWhile (fun c => c != '.')).drop 1
    let mag : ℚ := (digitsVal intPart : ℚ) + (digitsVal fracPart : ℚ) / (10 ^ fracPart.length : ℚ)
    some (if neg then -mag else mag)
  else none

/-- The placeholder tokens `("--", "-", "", "Х", "X")` of `_parse_decimal`
(the fourth entry is the Cyrillic capital Kha). -/
def placeholderTokens : List String := ["--", "-", "", "Х", "X"]

/-- The cleanup pipeline inside `_parse_decimal`:
`text.strip().replace("\xa0", "").replace(" ", "").replace(",", ".")`
followed by `re.sub(r"[^\d.\-]", "", ...)`.  Single-character `replace`
with an empty replacement is a filter; replacing `","` by `"."` is a map;
the final regex keeps only digits, `'.'` and `'-'`. -/
def pdCleaned (text : String) : String :=
  let cleaned := ((pyStrip text).toList.filter fun c =>
    !(c == ' ') && !(c == ' ')).map fun c => if c == ',' then '.' else c
  String.mk (cleaned.filter fun c => c.isDigit || c == '.' || c == '-')

/-- `_parse_decimal`: Russian-format decimal parsing.  Placeholder tokens
(after stripping) yield `0`; otherwise the cleaned string is converted with
`Decimal`, and a conversion failure (`InvalidOperation`) yields `0`. -/
def _parse_decimal (text : String) : ℚ :=
  if text = "" ∨ pyStrip text ∈ placeholderTokens then 0
  else (decimalOfString? (pdCleaned text)).getD 0

/-- The no-VAT rate strings `("--", "-", "", "без НДС", "Без НДС")`. -/
def noVatStrings : List String := ["--", "-", "", "без НДС", "Без НДС"]

/-- First match of `re.search(r"(\d+)\s*%", s)`: scan left to right for a
maximal digit run followed by optional whitespace and `'%'`; return the run's
value.  (Backtracking inside `\d+` can never help: a shorter run leaves a
digit where `\s*%` must match.) -/
def findPercent : List Char → Option ℕ
  | [] => none
  | c :: rest =>
    if c.isDigit then
      let ds := (c :: rest).takeWhile Char.isDigit
      let after := ((c :: rest).dropWhile Char.isDigit).dropWhile isPySpace
      match after with
      | '%' :: _ => some (digitsVal ds)
      | _ => findPercent rest
    else findPercent rest

/-- First match of `re.search(r"(\d+)\s*/\s*\d+", s)`: a maximal digit run,
optional whitespace, `'/'`, optional whitespace, at least one digit; return
the first run's value. -/
def findFraction : List Char → Option ℕ
  | [] => none
  | c :: rest =>
    if c.isDigit then
      let ds := (c :: rest).takeWhile Char.isDigit
      let after := ((c :: rest).dropWhile Char.isDigit).dropWhile isPySpace
      match after with
      | '/' :: a2 =>
        if ((a2.dropWhile isPySpace).headD ' ').isDigit then some (digitsVal ds)
        else findFraction rest
      | _ => findFraction rest
    else findFraction rest

/-- `_parse_vat_rate_percent`: `"20%" → 20`, `"10/110" → 10`,
placeholders and `"без НДС"` variants → `0`, anything else → `0`. -/
def _parse_vat_rate_percent (rate_str : String) : ℕ :=
  if rate_str = "" then 0
  else
    let r := pyStrip rate_str
    if r ∈ noVatStrings then 0
    else match findPercent r.toList with
      | some n => n
      | none =>
        match findFraction r.toList with
        | some n => n
        | none => 0

example : _parse_decimal "10 500,00" = 10500 := by decide
example : _parse_decimal "--" = 0 := by decide
example : _parse_decimal "Х" = 0 := by decide
example : _parse_decimal "abc" = 0 := by decide
example : _parse_decimal "-5,5" = -(11/2 : ℚ) := by decide
example : _parse_vat_rate_percent "20%" = 20 := by decide
example : _parse_vat_rate_percent "10/110" = 10 := by decide
example : _parse_vat_rate_percent "без НДС" = 0 := by decide
example : _clean "  a   b  " = "a b" := by decide

/-- `LineItem`: one row of the goods table.  Decimal fields are `ℚ`
(exact decimal arithmetic), string fields are raw cell text after `_clean`. -/
structure LineItem where
  row_number : ℕ := 0
  product_code : String := ""
  name : String := ""
  product_type_code : String := ""
  unit_code : String := ""
  unit_name : String := ""
  quantity : ℚ := 0
  unit_price : ℚ := 0
  subtotal : ℚ := 0
  excise : String := ""
  vat_rate : String := ""
  vat_rate_percent : ℕ := 0
  vat_amount : ℚ := 0
  total : ℚ := 0
  country_code : String := ""
  country_name : String := ""
  customs_declaration : String := ""
  deriving DecidableEq

/-- `Totals`: the declared document totals from the `Всего к оплате` row. -/
structure Totals where
  subtotal : ℚ := 0
  vat : ℚ := 0
  total : ℚ := 0
  deriving DecidableEq

/-- The `detection_reason` strings of `_detect_vat_mode`, as structured
constructors carrying the interpolated match counts. -/
inductive DetectionReason where
  | default
  | noItems
  | allNoVat
  | noCheckedItems
  | ontopAll (total : ℕ)
  | includedAll (total : ℕ)
  | ontopDefault (ontop included total : ℕ)
  | includedMajority (included ontop total : ℕ)
  deriving DecidableEq

/-- `VATInfo`: detected VAT mode, observed positive rates, confidence. -/
structure VATInfo where
  vat_mode : String := ""
  vat_rates : List ℕ := []
  detection_confidence : String := ""
  detection_reason : DetectionReason := .default
  deriving DecidableEq

/-- The error/warning strings of `_validate`, as structured constructors
carrying exactly the data the source interpolates into each f-string. -/
inductive VMsg where
  | itemMath (row : ℕ) (code : String) (expected subtotal diff : ℚ)
  | sumSubtotal (sum declared diff : ℚ)
  | sumVat (sum declared diff : ℚ)
  | sumTotal (sum declared diff : ℚ)
  | totalsAddUp (subtotal vat expected total : ℚ)
  | noneModeVat (count : ℕ)
  | noneModeTotals (subtotal total : ℚ)
  | ontopItemTotal (row : ℕ) (subtotal vat expected total : ℚ)
  | ontopItemVatMath (row : ℕ) (subtotal : ℚ) (rate : ℕ) (expected vat : ℚ)
  | includedItem (row : ℕ) (total vat expected subtotal : ℚ)
  | lowConfidence (confidence : String) (reason : DetectionReason)
  deriving DecidableEq

/-- `ValidationResult`. -/
structure ValidationResult where
  is_valid : Bool := true
  errors : List VMsg := []
  warnings : List VMsg := []
  deriving DecidableEq

/-- `UPDDocument`, restricted to the fields the embedded functions read:
`_detect_vat_mode` reads `items`; `_validate` reads `items`, `totals` and
`vat`.  The header/transfer/metadata fields of the source dataclass are
never touched by these functions and are omitted. -/
structure UPDDocument where
  items : List LineItem := []
  totals : Totals := {}
  vat : VATInfo := {}
  deriving DecidableEq

/-- A table row: cells as extracted (a Python `None` cell is `""`). -/
abbrev Row := List String

/-- `_is_label_row`: the column-index marker row (`А`, `1а`, `11` present
among the cleaned nonempty cells). -/
def _is_label_row (row : Row) : Bool :=
  let cleaned := (row.filter fun c => c != "").map _clean
  !cleaned.isEmpty && cleaned.contains "А" && cleaned.contains "1а" && cleaned.contains "11"

/-- `pat` occurs as a contiguous sublist of the character list. -/
def listInfix (pat : List Char) : List Char → Bool
  | [] => pat.isEmpty
  | c :: rest => pat.isPrefixOf (c :: rest) || listInfix pat rest

/-- Substring test: `pat in s` in Python. -/
def strContains (s pat : String) : Bool :=
  listInfix pat.toList s.toList

/-- `" ".join(_clean(c) for c in row if c)`. -/
def rowText (row : Row) : String :=
  String.intercalate " " ((row.filter fun c => c != "").map _clean)

/-- The descriptive-header keywords of `_is_header_row`. -/
def headerKeywords : List String :=
  ["Код товара", "Наименование товара", "Единица измерения", "условное", "нацио", "краткое", "циф-"]

/-- `_is_header_row`. -/
def _is_header_row (row : Row) : Bool :=
  headerKeywords.any fun kw => strContains (rowText row) kw

/-- `_is_totals_row`. -/
def _is_totals_row (row : Row) : Bool :=
  strContains (rowText row) "Всего к оплате" || strContains (pyLower (rowText row)) "всего к оплате"

/-- The signature-block keywords of `_is_signature_row`. -/
def signatureKeywords : List String :=
  ["Руководитель организации", "Главный бухгалтер", "уполномоченное лицо", "подпись", "ф.и.о."]

/-- `_is_signature_row`. -/
def _is_signature_row (row : Row) : Bool :=
  signatureKeywords.any fun kw => strContains (rowText row) kw

/-- The `while len(stripped) > expected_cols and not _clean(stripped[0])`
loop of `_normalize_row`: repeatedly drop the leading cell while the row is
wider than `expected_cols` and that cell cleans to empty. -/
def dropLeadingEmptyWide (expected_cols : ℕ) : Row → Row
  | [] => []
  | c :: rest =>
    if rest.length + 1 > expected_cols ∧ _clean c = "" then dropLeadingEmptyWide expected_cols rest
    else c :: rest

/-- `_normalize_row`: map a variable-width row to `expected_cols` (16) cells:
width 17 drops the leading cell, width 16 is unchanged, width > 17 drops
leading clean-empty cells while wider than 16 then truncates to 16, and a
narrower row is right-padded with `""`. -/
def _normalize_row (row : Row) (expected_cols : ℕ := 16) : Row :=
  if row.length = expected_cols + 1 then row.tail
  else if row.length = expected_cols then row
  else if row.length > expected_cols + 1 then (dropLeadingEmptyWide expected_cols row).take expected_cols
  else row ++ List.replicate (expected_cols - row.length) ""

/-- `_parse_line_item`: build a `LineItem` from a (re-)normalized row; a row
with empty cleaned name and product code is dropped (`None`).  The row
number is the digits of the row-number cell, falling back to
`fallback_row_num` when the cell is empty or digit-free (`int("")` raises
`ValueError`). -/
def _parse_line_item (row : Row) (fallback_row_num : ℕ) : Option LineItem :=
  let cols := _normalize_row row
  let product_code := _clean (cols.getD 0 "")
  let row_num_str := _clean (cols.getD 1 "")
  let name := _clean (cols.getD 2 "")
  if name = "" ∧ product_code = "" then none
  else
    let ds := row_num_str.toList.filter Char.isDigit
    let row_num := if row_num_str = "" then fallback_row_num
                   else if ds = [] then fallback_row_num
                   else digitsVal ds
    let vat_rate_raw := _clean (cols.getD 10 "")
    some { row_number := row_num
           product_code := product_code
           name := name
           product_type_code := _clean (cols.getD 3 "")
           unit_code := _clean (cols.getD 4 "")
           unit_name := _clean (cols.getD 5 "")
           quantity := _parse_decimal (cols.getD 6 "")
           unit_price := _parse_decimal (cols.getD 7 "")
           subtotal := _parse_decimal (cols.getD 8 "")
           excise := _clean (cols.getD 9 "")
           vat_rate := vat_rate_raw
           vat_rate_percent := _parse_vat_rate_percent vat_rate_raw
           vat_amount := _parse_decimal (cols.getD 11 "")
           total := _parse_decimal (cols.getD 12 "")
           country_code := _clean (cols.getD 13 "")
           country_name := _clean (cols.getD 14 "")
           customs_declaration := _clean (cols.getD 15 "") }

/-- `_parse_totals_row`: subtotal/vat/total from positions 8/11/12 of the
normalized row. -/
def _parse_totals_row (row : Row) : Totals :=
  let cols := _normalize_row row
  { subtotal := _parse_decimal (cols.getD 8 "")
    vat := _parse_decimal (cols.getD 11 "")
    total := _parse_decimal (cols.getD 12 "") }

/-- The row loop of `_extract_items_from_page`, over the concatenated rows
of the page's tables: classifier rows are skipped, a totals row replaces the
running totals, a parsed item bumps `item_counter` (whose successor is the
fallback row number passed to `_parse_line_item`). -/
def processRows : List Row → ℕ → List LineItem → Option Totals → List LineItem × Option Totals
  | [], _, acc, totals => (acc, totals)
  | row :: rest, counter, acc, totals =>
    if _is_label_row row || _is_header_row row || _is_signature_row row then
      processRows rest counter acc totals
    else if _is_totals_row row then
      processRows rest counter acc (some (_parse_totals_row row))
    else
      match _parse_line_item row (counter + 1) with
      | some item => processRows rest (counter + 1) (acc ++ [item]) totals
      | none => processRows rest counter acc totals

/-- `_extract_items_from_page`: a page is its list of extracted tables, each
a list of rows; the nested `for table / for row` loops visit the
concatenation in order with one shared counter and totals slot. -/
def _extract_items_from_page (tables : List (List Row)) (item_counter : ℕ) :
    List LineItem × Option Totals :=
  processRows tables.flatten item_counter [] none

/-- The item-accumulation loop of `parse_upd`: over pages in order, extract
items with `item_counter = len(all_items)`, extend `all_items`, and keep the
page's totals row if one was seen (`if totals: final_totals = totals`). -/
def collectItems (pages : List (List (List Row))) : List LineItem × Option Totals :=
  pages.foldl
    (fun acc page =>
      let r := _extract_items_from_page page acc.1.length
      (acc.1 ++ r.1, match r.2 with | some t => some t | none => acc.2))
    ([], none)

/-- Insertion into a sorted list (for `sorted(...)`). -/
def insertSorted (n : ℕ) : List ℕ → List ℕ
  | [] => [n]
  | m :: rest => if n ≤ m then n :: m :: rest else m :: insertSorted n rest

/-- `sorted(l)` by insertion sort. -/
def sortNat (l : List ℕ) : List ℕ := l.foldr insertSorted []

/-- `sorted(r for r in set(rates) if r > 0)`: the distinct positive
`vat_rate_percent` values, sorted. -/
def detectedRates (doc : UPDDocument) : List ℕ :=
  sortNat (((doc.items.map (·.vat_rate_percent)).eraseDups).filter fun r => decide (0 < r))

/-- `items_with_vat`: the checked set — items with positive rate and
positive quantity. -/
def checkedItems (doc : UPDDocument) : List LineItem :=
  doc.items.filter fun i => decide (0 < i.vat_rate_percent ∧ 0 < i.quantity)

/-- An item ontop-matches: `|price × qty − subtotal| ≤ 0.02 × qty`. -/
def ontopMatch (i : LineItem) : Prop :=
  |i.unit_price * i.quantity - i.subtotal| ≤ 2/100 * i.quantity

instance (i : LineItem) : Decidable (ontopMatch i) := by
  unfold ontopMatch; infer_instance

/-- An item included-matches: `|price × qty − total| ≤ 0.02 × qty`. -/
def includedMatch (i : LineItem) : Prop :=
  |i.unit_price * i.quantity - i.total| ≤ 2/100 * i.quantity

instance (i : LineItem) : Decidable (includedMatch i) := by
  unfold includedMatch; infer_instance

/-- `ontop_score`: how many checked items ontop-match. -/
def ontopScore (doc : UPDDocument) : ℕ :=
  ((checkedItems doc).filter fun i => decide (ontopMatch i)).length

/-- `included_score`: how many checked items included-match. -/
def includedScore (doc : UPDDocument) : ℕ :=
  ((checkedItems doc).filter fun i => decide (includedMatch i)).length

/-- `_detect_vat_mode`: classify the document's VAT convention from its
items (the source's scores are accumulated in one loop; counting the items
passing each test yields the same two numbers). -/
def _detect_vat_mode (doc : UPDDocument) : VATInfo :=
  if doc.items = [] then
    { vat_mode := "none", vat_rates := [], detection_confidence := "low",
      detection_reason := .noItems }
  else if (∀ i ∈ doc.items, i.vat_rate_percent = 0) ∧ (∀ i ∈ doc.items, i.vat_amount = 0) ∧
      (∀ i ∈ doc.items, i.vat_rate ∈ noVatStrings) then
    { vat_mode := "none", vat_rates := detectedRates doc, detection_confidence := "high",
      detection_reason := .allNoVat }
  else if (checkedItems doc).length = 0 then
    { vat_mode := "none", vat_rates := detectedRates doc, detection_confidence := "low",
      detection_reason := .noCheckedItems }
  else if ontopScore doc = (checkedItems doc).length ∧ includedScore doc < (checkedItems doc).length then
    { vat_mode := "ontop", vat_rates := detectedRates doc, detection_confidence := "high",
      detection_reason := .ontopAll (checkedItems doc).length }
  else if includedScore doc = (checkedItems doc).length ∧ ontopScore doc < (checkedItems doc).length then
    { vat_mode := "included", vat_rates := detectedRates doc, detection_confidence := "high",
      detection_reason := .includedAll (checkedItems doc).length }
  else if includedScore doc ≤ ontopScore doc then
    { vat_mode := "ontop", vat_rates := detectedRates doc, detection_confidence := "medium",
      detection_reason := .ontopDefault (ontopScore doc) (includedScore doc) (checkedItems doc).length }
  else
    { vat_mode := "included", vat_rates := detectedRates doc, detection_confidence := "medium",
      detection_reason := .includedMajority (includedScore doc) (ontopScore doc) (checkedItems doc).length }

/-- Sum of the items' `subtotal` fields. -/
def itemSubtotalSum (doc : UPDDocument) : ℚ := (doc.items.map (·.subtotal)).sum

/-- Sum of the items' `vat_amount` fields. -/
def itemVatSum (doc : UPDDocument) : ℚ := (doc.items.map (·.vat_amount)).sum

/-- Sum of the items' `total` fields. -/
def itemTotalSum (doc : UPDDocument) : ℚ := (doc.items.map (·.total)).sum

/-- The per-item `quantity × unit_price` vs `subtotal` warnings of
`_validate` (guard `if item.quantity and item.unit_price`: both nonzero). -/
def itemMathWarnings (doc : UPDDocument) : List VMsg :=
  doc.items.filterMap fun item =>
    if item.quantity ≠ 0 ∧ item.unit_price ≠ 0 ∧
        |item.quantity * item.unit_price - item.subtotal| > 2/100 then
      some (.itemMath item.row_number item.product_code (item.quantity * item.unit_price)
        item.subtotal |item.quantity * item.unit_price - item.subtotal|)
    else none

/-- The item-subtotal-sum vs declared-subtotal error
(guard `if doc.items and doc.totals.subtotal`). -/
def sumSubtotalErrors (doc : UPDDocument) : List VMsg :=
  if doc.items ≠ [] ∧ doc.totals.subtotal ≠ 0 ∧
      |itemSubtotalSum doc - doc.totals.subtotal| > 5/100 then
    [.sumSubtotal (itemSubtotalSum doc) doc.totals.subtotal
      |itemSubtotalSum doc - doc.totals.subtotal|]
  else []

/-- The item-VAT-sum vs declared-VAT error (guard `if doc.items and doc.totals.vat`). -/
def sumVatErrors (doc : UPDDocument) : List VMsg :=
  if doc.items ≠ [] ∧ doc.totals.vat ≠ 0 ∧ |itemVatSum doc - doc.totals.vat| > 5/100 then
    [.sumVat (itemVatSum doc) doc.totals.vat |itemVatSum doc - doc.totals.vat|]
  else []

/-- The item-total-sum vs declared-total error (guard `if doc.items and doc.totals.total`). -/
def sumTotalErrors (doc : UPDDocument) : List VMsg :=
  if doc.items ≠ [] ∧ doc.totals.total ≠ 0 ∧ |itemTotalSum doc - doc.totals.total| > 5/100 then
    [.sumTotal (itemTotalSum doc) doc.totals.total |itemTotalSum doc - doc.totals.total|]
  else []

/-- The `subtotal + vat ≈ total` warning on the declared totals. -/
def totalsAddUpWarnings (doc : UPDDocument) : List VMsg :=
  if doc.totals.subtotal ≠ 0 ∧ doc.totals.total ≠ 0 ∧
      |doc.totals.subtotal + doc.totals.vat - doc.totals.total| > 5/100 then
    [.totalsAddUp doc.totals.subtotal doc.totals.vat (doc.totals.subtotal + doc.totals.vat)
      doc.totals.total]
  else []

/-- The `none`-mode errors: items with positive VAT amounts
(`i.vat_amount > 0`), and declared subtotal vs total
(guard `if doc.totals.subtotal and doc.totals.total`). -/
def noneModeErrors (doc : UPDDocument) : List VMsg :=
  (if (doc.items.filter fun i => decide (0 < i.vat_amount)).length ≠ 0 then
    [.noneModeVat (doc.items.filter fun i => decide (0 < i.vat_amount)).length]
  else []) ++
  (if doc.totals.subtotal ≠ 0 ∧ doc.totals.total ≠ 0 ∧
      |doc.totals.subtotal - doc.totals.total| > 5/100 then
    [.noneModeTotals doc.totals.subtotal doc.totals.total]
  else [])

/-- The `ontop`-mode warnings: the source runs two separate item loops, so
all `subtotal + vat ≈ total` warnings precede all VAT-math warnings. -/
def ontopModeWarnings (doc : UPDDocument) : List VMsg :=
  (doc.items.filterMap fun item =>
    if 0 < item.vat_rate_percent ∧ 0 < item.subtotal ∧
        |item.subtotal + item.vat_amount - item.total| > 2/100 then
      some (.ontopItemTotal item.row_number item.subtotal item.vat_amount
        (item.subtotal + item.vat_amount) item.total)
    else none) ++
  (doc.items.filterMap fun item =>
    if 0 < item.vat_rate_percent ∧ 0 < item.subtotal ∧
        |item.subtotal * (item.vat_rate_percent : ℚ) / 100 - item.vat_amount| > 2/100 * item.quantity then
      some (.ontopItemVatMath item.row_number item.subtotal item.vat_rate_percent
        (item.subtotal * (item.vat_rate_percent : ℚ) / 100) item.vat_amount)
    else none)

/-- The `included`-mode warnings: `total − vat ≈ subtotal` per item. -/
def includedModeWarnings (doc : UPDDocument) : List VMsg :=
  doc.items.filterMap fun item =>
    if 0 < item.vat_rate_percent ∧ 0 < item.total ∧
        |item.total - item.vat_amount - item.subtotal| > 2/100 then
      some (.includedItem item.row_number item.total item.vat_amount
        (item.total - item.vat_amount) item.subtotal)
    else none

/-- The low/medium-confidence warning. -/
def confidenceWarnings (doc : UPDDocument) : List VMsg :=
  if doc.vat.detection_confidence ∈ ["low", "medium"] then
    [.lowConfidence doc.vat.detection_confidence doc.vat.detection_reason]
  else []

/-- `_validate`: errors and warnings in the order the source appends them;
`is_valid := len(result.errors) == 0`. -/
def _validate (doc : UPDDocument) : ValidationResult :=
  let errors :=
    sumSubtotalErrors doc ++ sumVatErrors doc ++ sumTotalErrors doc ++
    (if doc.vat.vat_mode = "none" then noneModeErrors doc else [])
  let warnings :=
    itemMathWarnings doc ++ totalsAddUpWarnings doc ++
    (if doc.vat.vat_mode = "none" then []
     else if doc.vat.vat_mode = "ontop" then ontopModeWarnings doc
     else if doc.vat.vat_mode = "included" then includedModeWarnings doc
     else []) ++
    confidenceWarnings doc
  { is_valid := errors.isEmpty, errors := errors, warnings := warnings }

/-- Scenario A of the spec: unit_price 100, quantity 2, subtotal 200,
vat_amount 40, total 240, rate 20%. -/
def itemA : LineItem :=
  { row_number := 1, name := "Товар", quantity := 2, unit_price := 100, subtotal := 200,
    vat_rate := "20%", vat_rate_percent := 20, vat_amount := 40, total := 240 }

/-- Document containing only scenario A's item. -/
def docA : UPDDocument := { items := [itemA] }

/-- Scenario B: the same item with unit_price 120. -/
def itemB : LineItem := { itemA with unit_price := 120 }

/-- Document containing only scenario B's item. -/
def docB : UPDDocument := { items := [itemB] }

/-- A data row with no row number: empty product code and row-number cells,
nonempty name, all other cells empty. -/
def dataRow : Row :=
  ["", "", "Товар", "", "", "", "", "", "", "", "", "", "", "", "", ""]

/-- Two pages, one table each, contributing 3 and 2 data rows, all lacking
explicit row numbers. -/
def pagesC5 : List (List (List Row)) :=
  [[[dataRow, dataRow, dataRow]], [[dataRow, dataRow]]]

/-- The item `_parse_line_item` builds from `dataRow` with fallback 7. -/
def itemFallback7 : LineItem := { row_number := 7, name := "Товар" }

/-- An all-zero no-VAT item with raw rate `"--"`. -/
def itemNoVat : LineItem := { name := "Товар", vat_rate := "--" }

/-- Document with one no-VAT item (for the `none`/`high` witness). -/
def docC6 : UPDDocument := { items := [itemNoVat] }

/-- C2 literal scenario: two items with subtotal 100 each, declared
`Totals.subtotal = 150`, assembled through the detector as in `parse_upd`. -/
def docC2lit0 : UPDDocument :=
  { items := [{ name := "Товар", subtotal := 100, vat_rate := "--" },
              { name := "Товар", subtotal := 100, vat_rate := "--" }],
    totals := { subtotal := 150 } }

/-- C2 literal scenario with the detected VAT info attached. -/
def docC2lit : UPDDocument := { docC2lit0 with vat := _detect_vat_mode docC2lit0 }

/-- C2 counterexample: one item with subtotal 1, all declared totals zero. -/
def docC2cex0 : UPDDocument :=
  { items := [{ name := "Товар", subtotal := 1, vat_rate := "--" }] }

/-- C2 counterexample with the detected VAT info attached. -/
def docC2cex : UPDDocument := { docC2cex0 with vat := _detect_vat_mode docC2cex0 }

/-- C7 counterexample: detected mode `none` (rate 20% but zero quantity, so
the checked set is empty), one item with vat_amount −1 and total 100,
declared subtotal 0 and declared total 100. -/
def docC7cex0 : UPDDocument :=
  { items := [{ name := "Товар", vat_rate := "20%", vat_rate_percent := 20,
                vat_amount := -1, total := 100 }],
    totals := { total := 100 } }

/-- C7 counterexample with the detected VAT info attached. -/
def docC7cex : UPDDocument := { docC7cex0 with vat := _detect_vat_mode docC7cex0 }

/-- C7 witness document: mode `none` with an item carrying a positive VAT
amount and mismatched nonzero declared subtotal/total. -/
def docC7wit0 : UPDDocument :=
  { items := [{ name := "Товар", vat_rate := "20%", vat_rate_percent := 20,
                subtotal := 3, vat_amount := 5, total := 100 }],
    totals := { subtotal := 3, total := 100 } }

/-- C7 witness document with the detected VAT info attached. -/
def docC7wit : UPDDocument := { docC7wit0 with vat := _detect_vat_mode docC7wit0 }

/-- C8 counterexample: an item whose quantity and price are zero but whose
subtotal is 5 — the deviation is 5 yet the guarded check never runs. -/
def docC8cex0 : UPDDocument :=
  { items := [{ name := "Товар", subtotal := 5, vat_rate := "--" }] }

/-- C8 counterexample with the detected VAT info attached. -/
def docC8cex : UPDDocument := { docC8cex0 with vat := _detect_vat_mode docC8cex0 }

/-- C8 witness item: quantity 1, price 1, subtotal 5. -/
def itemC8wit : LineItem :=
  { name := "Товар", quantity := 1, unit_price := 1, subtotal := 5, vat_rate := "--" }

/-- C8 witness document. -/
def docC8wit0 : UPDDocument := { items := [itemC8wit] }

/-- C8 witness document with the detected VAT info attached. -/
def docC8wit : UPDDocument := { docC8wit0 with vat := _detect_vat_mode docC8wit0 }

example : (_detect_vat_mode docA).vat_mode = "ontop" ∧
    (_detect_vat_mode docA).detection_confidence = "high" := by decide
example : (_detect_vat_mode docB).vat_mode = "included" ∧
    (_detect_vat_mode docB).detection_confidence = "high" := by decide
example : (collectItems pagesC5).1.map (·.row_number) = [1, 2, 3, 4, 5] := by decide
example : _parse_line_item dataRow 7 = some itemFallback7 := by decide
example : (_detect_vat_mode docC6).vat_mode = "none" := by decide
example : (_validate docC2lit).is_valid = false ∧
    (_validate docC2lit).errors = [.sumSubtotal 200 150 50] := by decide
example : (_validate docC2cex).errors = [] := by decide
example : (_detect_vat_mode docC7cex0).vat_mode = "none" ∧ (_validate docC7cex).errors = [] := by decide
example : (_validate docC7wit).errors =
    [.noneModeVat 1, .noneModeTotals 3 100] := by decide
example : (_validate docC8cex).warnings = [] := by decide
example : (_validate docC8wit).warnings = [.itemMath 0 "" 1 5 4] := by decide

/-- A filter keeps every element exactly when its length is unchanged. -/
theorem length_filter_eq_iff {α : Type} (p : α → Bool) (l : List α) :
    (l.filter p).length = l.length ↔ ∀ a ∈ l, p a = true := by
  induction l with
  | nil => simp
  | cons a l ih =>
    cases hpa : p a with
    | true => simp [List.filter_cons, hpa, ih]
    | false =>
      have hle := List.length_filter_le p l
      constructor
      · intro hlen
        rw [List.filter_cons, hpa] at hlen
        simp at hlen
        omega
      · intro hall
        exact absurd (hall a (List.mem_cons_self a l)) (by simp [hpa])

/-- The leading-empty-drop loop never shrinks a row below `expected_cols`. -/
theorem dropLeadingEmptyWide_length_ge (e : ℕ) (l : Row) (h : e ≤ l.length) :
    e ≤ (dropLeadingEmptyWide e l).length := by
  induction l with
  | nil => exact h
  | cons c rest ih =>
    rw [dropLeadingEmptyWide]
    split
    · next hc => exact ih (by omega)
    · exact h

/-- `_normalize_row` always yields exactly 16 cells. -/
theorem normalize_row_length (row : Row) : (_normalize_row row).length = 16 := by
  unfold _normalize_row
  split_ifs with h1 h2 h3
  · simp [h1]
  · exact h2
  · have := dropLeadingEmptyWide_length_ge 16 row (by omega)
    simp only [List.length_take]
    omega
  · simp only [List.length_append, List.length_replicate]
    omega

/-- C3: `_parse_decimal` maps each (possibly whitespace-padded) placeholder
token to exactly `0`; on all other inputs it applies the cleanup pipeline
(drop spaces and no-break spaces, comma to point, keep only digits, `.` and
`-`) and converts, so `"10 500,00"` yields exactly `10500.00`; and whenever
conversion fails the result is `0` — the function is total. -/
theorem parse_decimal_spec :
    (∀ s : String, pyStrip s ∈ placeholderTokens → _parse_decimal s = 0) ∧
    _parse_decimal "10 500,00" = 10500 ∧
    (∀ s : String, ¬(s = "" ∨ pyStrip s ∈ placeholderTokens) →
      _parse_decimal s = (decimalOfString? (pdCleaned s)).getD 0) ∧
    (∀ s : String, decimalOfString? (pdCleaned s) = none → _parse_decimal s = 0) := by
  refine ⟨?_, by decide, ?_, ?_⟩
  · intro s hs
    unfold _parse_decimal
    rw [if_pos (Or.inr hs)]
  · intro s hs
    unfold _parse_decimal
    rw [if_neg hs]
  · intro s hs
    unfold _parse_decimal
    split_ifs with h
    · rfl
    · rw [hs]; rfl

/-- Witness for C3 at concrete inputs. -/
theorem parse_decimal_spec_witness :
    _parse_decimal " -- " = 0 ∧ _parse_decimal "10 500,00" = 10500 ∧ _parse_decimal "abc" = 0 :=
  ⟨parse_decimal_spec.1 " -- " (by decide), parse_decimal_spec.2.1,
   parse_decimal_spec.2.2.2 "abc" (by decide)⟩

/-- C4: the four width rules of column normalization — width 17 drops the
first cell, width 16 is unchanged, width > 17 drops leading clean-empty
cells then truncates to 16, width < 16 right-pads with `""` — and hence a
17-wide row with a leading empty cell and the 16-wide row of its trailing
cells normalize identically and give identical `_parse_line_item` results. -/
theorem normalize_row_rules :
    (∀ row : Row, row.length = 17 → _normalize_row row = row.tail) ∧
    (∀ row : Row, row.length = 16 → _normalize_row row = row) ∧
    (∀ row : Row, row.length > 17 →
      _normalize_row row = (dropLeadingEmptyWide 16 row).take 16) ∧
    (∀ row : Row, row.length < 16 →
      _normalize_row row = row ++ List.replicate (16 - row.length) "") ∧
    (∀ row : Row, row.length = 16 →
      _normalize_row ("" :: row) = _normalize_row row ∧
      ∀ n : ℕ, _parse_line_item ("" :: row) n = _parse_line_item row n) := by
  have h17 : ∀ row : Row, row.length = 17 → _normalize_row row = row.tail := by
    intro row h
    unfold _normalize_row
    rw [if_pos (by omega)]
  have h16 : ∀ row : Row, row.length = 16 → _normalize_row row = row := by
    intro row h
    unfold _normalize_row
    rw [if_neg (by omega), if_pos h]
  refine ⟨h17, h16, ?_, ?_, ?_⟩
  · intro row h
    unfold _normalize_row
    rw [if_neg (by omega), if_neg (by omega), if_pos (by omega)]
  · intro row h
    unfold _normalize_row
    rw [if_neg (by omega), if_neg (by omega), if_neg (by omega)]
  · intro row h
    have hn : _normalize_row ("" :: row) = _normalize_row row := by
      rw [h17 ("" :: row) (by simp [h]), h16 row h]
      rfl
    exact ⟨hn, fun n => by unfold _parse_line_item; rw [hn]⟩

/-- Witness for C4 at a concrete 16-wide row. -/
theorem normalize_row_rules_witness :
    _normalize_row ("" :: dataRow) = _normalize_row dataRow ∧
    _parse_line_item ("" :: dataRow) 7 = _parse_line_item dataRow 7 :=
  ⟨(normalize_row_rules.2.2.2.2 dataRow (by decide)).1,
   (normalize_row_rules.2.2.2.2 dataRow (by decide)).2 7⟩

/-- C9: `is_valid` holds exactly when the error list is empty; warnings play
no part in it. -/
theorem is_valid_iff_no_errors (doc : UPDDocument) :
    (_validate doc).is_valid = true ↔ (_validate doc).errors = [] := by
  simp [_validate]

/-- C10: `_normalize_row` returns exactly 16 cells on every input row, so
the positional reads of indices 0–15 (`_parse_line_item`) and 8, 11, 12
(`_parse_totals_row`) are in bounds. -/
theorem normalize_row_always_16 (row : Row) :
    (_normalize_row row).length = 16 ∧
    ∀ i : ℕ, i < 16 → i < (_normalize_row row).length := by
  refine ⟨normalize_row_length row, ?_⟩
  intro i hi
  rw [normalize_row_length row]
  exact hi

/-- Witness for C10 at a concrete row and index. -/
theorem normalize_row_always_16_witness :
    (_normalize_row ["a"]).length = 16 ∧ 15 < (_normalize_row ["a"]).length :=
  ⟨(normalize_row_always_16 ["a"]).1, (normalize_row_always_16 ["a"]).2 15 (by decide)⟩

/-- C6: a non-empty item list in which every item has rate 0, VAT amount 0
and a recognized no-VAT raw rate string detects as mode `none`, confidence
`high`. -/
theorem detect_no_vat_high (doc : UPDDocument) (h1 : doc.items ≠ [])
    (h2 : ∀ i ∈ doc.items,
      i.vat_rate_percent = 0 ∧ i.vat_amount = 0 ∧ i.vat_rate ∈ noVatStrings) :
    (_detect_vat_mode doc).vat_mode = "none" ∧
    (_detect_vat_mode doc).detection_confidence = "high" := by
  have hcond : (∀ i ∈ doc.items, i.vat_rate_percent = 0) ∧
      (∀ i ∈ doc.items, i.vat_amount = 0) ∧ (∀ i ∈ doc.items, i.vat_rate ∈ noVatStrings) :=
    ⟨fun i hi => (h2 i hi).1, fun i hi => (h2 i hi).2.1, fun i hi => (h2 i hi).2.2⟩
  unfold _detect_vat_mode
  rw [if_neg h1, if_pos hcond]
  exact ⟨rfl, rfl⟩

/-- Witness for C6 at a one-item no-VAT document. -/
theorem detect_no_vat_high_witness :
    (_detect_vat_mode docC6).vat_mode = "none" ∧
    (_detect_vat_mode docC6).detection_confidence = "high" :=
  detect_no_vat_high docC6 (by decide) (by decide)

/-- With a non-empty checked set, `_detect_vat_mode` reduces to its
score-comparison branches. -/
theorem detect_branch (doc : UPDDocument) (h : checkedItems doc ≠ []) :
    _detect_vat_mode doc =
      if ontopScore doc = (checkedItems doc).length ∧
          includedScore doc < (checkedItems doc).length then
        { vat_mode := "ontop", vat_rates := detectedRates doc, detection_confidence := "high",
          detection_reason := .ontopAll (checkedItems doc).length }
      else if includedScore doc = (checkedItems doc).length ∧
          ontopScore doc < (checkedItems doc).length then
        { vat_mode := "included", vat_rates := detectedRates doc, detection_confidence := "high",
          detection_reason := .includedAll (checkedItems doc).length }
      else if includedScore doc ≤ ontopScore doc then
        { vat_mode := "ontop", vat_rates := detectedRates doc, detection_confidence := "medium",
          detection_reason := .ontopDefault (ontopScore doc) (includedScore doc)
            (checkedItems doc).length }
      else
        { vat_mode := "included", vat_rates := detectedRates doc, detection_confidence := "medium",
          detection_reason := .includedMajority (includedScore doc) (ontopScore doc)
            (checkedItems doc).length } := by
  obtain ⟨x, hx⟩ := List.exists_mem_of_ne_nil _ h
  have hx' := List.mem_filter.mp hx
  have hxpos : 0 < x.vat_rate_percent := (of_decide_eq_true hx'.2).1
  have h1 : doc.items ≠ [] := List.ne_nil_of_mem hx'.1
  have hz : ¬((∀ i ∈ doc.items, i.vat_rate_percent = 0) ∧
      (∀ i ∈ doc.items, i.vat_amount = 0) ∧ (∀ i ∈ doc.items, i.vat_rate ∈ noVatStrings)) :=
    fun hc => by have := hc.1 x hx'.1; omega
  have ht : ¬((checkedItems doc).length = 0) := by
    intro h0
    exact h (List.length_eq_zero.mp h0)
  unfold _detect_vat_mode
  rw [if_neg h1, if_neg hz, if_neg ht]

/-- All checked items ontop-match exactly when the ontop score is full. -/
theorem ontopScore_full_iff (doc : UPDDocument) :
    ontopScore doc = (checkedItems doc).length ↔ ∀ i ∈ checkedItems doc, ontopMatch i := by
  unfold ontopScore
  rw [length_filter_eq_iff]
  simp

/-- All checked items included-match exactly when the included score is full. -/
theorem includedScore_full_iff (doc : UPDDocument) :
    includedScore doc = (checkedItems doc).length ↔ ∀ i ∈ checkedItems doc, includedMatch i := by
  unfold includedScore
  rw [length_filter_eq_iff]
  simp

/-- The ontop score never exceeds the checked count. -/
theorem ontopScore_le (doc : UPDDocument) : ontopScore doc ≤ (checkedItems doc).length :=
  List.length_filter_le _ _

/-- The included score never exceeds the checked count. -/
theorem includedScore_le (doc : UPDDocument) : includedScore doc ≤ (checkedItems doc).length :=
  List.length_filter_le _ _

/-- C1: with a non-empty checked set, all-ontop-and-not-all-included gives
(`ontop`, `high`), all-included-and-not-all-ontop gives (`included`,
`high`), and otherwise the larger score wins at `medium` with ties toward
`ontop`; in particular scenario A detects (`ontop`, `high`) and scenario B
(`included`, `high`). -/
theorem detect_vat_mode_decision (doc : UPDDocument) (h : checkedItems doc ≠ []) :
    (((∀ i ∈ checkedItems doc, ontopMatch i) ∧ ¬(∀ i ∈ checkedItems doc, includedMatch i)) →
      (_detect_vat_mode doc).vat_mode = "ontop" ∧
      (_detect_vat_mode doc).detection_confidence = "high") ∧
    (((∀ i ∈ checkedItems doc, includedMatch i) ∧ ¬(∀ i ∈ checkedItems doc, ontopMatch i)) →
      (_detect_vat_mode doc).vat_mode = "included" ∧
      (_detect_vat_mode doc).detection_confidence = "high") ∧
    ((¬((∀ i ∈ checkedItems doc, ontopMatch i) ∧ ¬(∀ i ∈ checkedItems doc, includedMatch i)) ∧
      ¬((∀ i ∈ checkedItems doc, includedMatch i) ∧ ¬(∀ i ∈ checkedItems doc, ontopMatch i))) →
      (_detect_vat_mode doc).vat_mode =
        (if includedScore doc ≤ ontopScore doc then "ontop" else "included") ∧
      (_detect_vat_mode doc).detection_confidence = "medium") ∧
    ((_detect_vat_mode docA).vat_mode = "ontop" ∧
     (_detect_vat_mode docA).detection_confidence = "high") ∧
    ((_detect_vat_mode docB).vat_mode = "included" ∧
     (_detect_vat_mode docB).detection_confidence = "high") := by
  rw [detect_branch doc h]
  refine ⟨?_, ?_, ?_, by decide, by decide⟩
  · rintro ⟨ha, hb⟩
    have ho : ontopScore doc = (checkedItems doc).length := (ontopScore_full_iff doc).mpr ha
    have hi : includedScore doc < (checkedItems doc).length :=
      Nat.lt_of_le_of_ne (includedScore_le doc)
        (fun e => hb ((includedScore_full_iff doc).mp e))
    rw [if_pos ⟨ho, hi⟩]
    exact ⟨rfl, rfl⟩
  · rintro ⟨ha, hb⟩
    have hi : includedScore doc = (checkedItems doc).length := (includedScore_full_iff doc).mpr ha
    have ho : ontopScore doc < (checkedItems doc).length :=
      Nat.lt_of_le_of_ne (ontopScore_le doc)
        (fun e => hb ((ontopScore_full_iff doc).mp e))
    rw [if_neg (fun hc => absurd hc.2 (by omega)), if_pos ⟨hi, ho⟩]
    exact ⟨rfl, rfl⟩
  · rintro ⟨hn1, hn2⟩
    have hc1 : ¬(ontopScore doc = (checkedItems doc).length ∧
        includedScore doc < (checkedItems doc).length) := by
      rintro ⟨hoe, hil⟩
      exact hn1 ⟨(ontopScore_full_iff doc).mp hoe,
        fun hall => absurd ((includedScore_full_iff doc).mpr hall) (by omega)⟩
    have hc2 : ¬(includedScore doc = (checkedItems doc).length ∧
        ontopScore doc < (checkedItems doc).length) := by
      rintro ⟨hie, hol⟩
      exact hn2 ⟨(includedScore_full_iff doc).mp hie,
        fun hall => absurd ((ontopScore_full_iff doc).mpr hall) (by omega)⟩
    rw [if_neg hc1, if_neg hc2]
    by_cases hio : includedScore doc ≤ ontopScore doc
    · rw [if_pos hio, if_pos hio]
      exact ⟨rfl, rfl⟩
    · rw [if_neg hio, if_neg hio]
      exact ⟨rfl, rfl⟩

/-- Witness for C1: the high-confidence branch at scenario A's document. -/
theorem detect_vat_mode_decision_witness :
    (_detect_vat_mode docA).vat_mode = "ontop" ∧
    (_detect_vat_mode docA).detection_confidence = "high" :=
  (detect_vat_mode_decision docA (by decide)).1 (by decide)

/-- C2 counterexample: a non-empty item list whose subtotal sum differs from
the declared `Totals.subtotal` by 1 (> 0.05), yet — the declared field being
zero — no error is recorded and the document validates. -/
theorem totals_sum_mismatch_cex :
    docC2cex.items ≠ [] ∧
    docC2cex.vat = _detect_vat_mode docC2cex0 ∧
    |itemSubtotalSum docC2cex - docC2cex.totals.subtotal| > 5/100 ∧
    (_validate docC2cex).errors = [] ∧ (_validate docC2cex).is_valid = true := by
  decide

/-- C2 (amended): for a document with items, when the corresponding declared
`Totals` field is nonzero, a sum/declared mismatch beyond 0.05 records an
error; and in the literal two-100-subtotal-items-vs-150 scenario validation
fails with exactly one error carrying the 50-unit mismatch. -/
theorem totals_sum_mismatch_errors :
    (∀ doc : UPDDocument, doc.items ≠ [] →
      (doc.totals.subtotal ≠ 0 → |itemSubtotalSum doc - doc.totals.subtotal| > 5/100 →
        VMsg.sumSubtotal (itemSubtotalSum doc) doc.totals.subtotal
          |itemSubtotalSum doc - doc.totals.subtotal| ∈ (_validate doc).errors) ∧
      (doc.totals.vat ≠ 0 → |itemVatSum doc - doc.totals.vat| > 5/100 →
        VMsg.sumVat (itemVatSum doc) doc.totals.vat
          |itemVatSum doc - doc.totals.vat| ∈ (_validate doc).errors) ∧
      (doc.totals.total ≠ 0 → |itemTotalSum doc - doc.totals.total| > 5/100 →
        VMsg.sumTotal (itemTotalSum doc) doc.totals.total
          |itemTotalSum doc - doc.totals.total| ∈ (_validate doc).errors)) ∧
    ((_validate docC2lit).is_valid = false ∧
     (_validate docC2lit).errors = [VMsg.sumSubtotal 200 150 50]) := by
  refine ⟨?_, by decide⟩
  intro doc hne
  refine ⟨?_, ?_, ?_⟩
  · intro hz hgt
    show _ ∈ (_validate doc).errors
    simp only [_validate]
    apply List.mem_append_left
    apply List.mem_append_left
    apply List.mem_append_left
    unfold sumSubtotalErrors
    rw [if_pos ⟨hne, hz, hgt⟩]
    exact List.mem_singleton.mpr rfl
  · intro hz hgt
    show _ ∈ (_validate doc).errors
    simp only [_validate]
    apply List.mem_append_left
    apply List.mem_append_left
    apply List.mem_append_right
    unfold sumVatErrors
    rw [if_pos ⟨hne, hz, hgt⟩]
    exact List.mem_singleton.mpr rfl
  · intro hz hgt
    show _ ∈ (_validate doc).errors
    simp only [_validate]
    apply List.mem_append_left
    apply List.mem_append_right
    unfold sumTotalErrors
    rw [if_pos ⟨hne, hz, hgt⟩]
    exact List.mem_singleton.mpr rfl

/-- Witness for C2's amended general part at the literal scenario. -/
theorem totals_sum_mismatch_errors_witness :
    VMsg.sumSubtotal (itemSubtotalSum docC2lit) docC2lit.totals.subtotal
      |itemSubtotalSum docC2lit - docC2lit.totals.subtotal| ∈ (_validate docC2lit).errors :=
  (totals_sum_mismatch_errors.1 docC2lit (by decide)).1 (by decide) (by decide)

/-- C7 counterexample: a document detected as mode `none` with an item whose
VAT amount is −1 (nonzero) and declared subtotal 0 vs declared total 100
(difference > 0.05), yet the validator records no error at all. -/
theorem none_mode_checks_cex :
    (_detect_vat_mode docC7cex0).vat_mode = "none" ∧
    docC7cex.vat = _detect_vat_mode docC7cex0 ∧
    (∃ i ∈ docC7cex.items, i.vat_amount ≠ 0) ∧
    |docC7cex.totals.subtotal - docC7cex.totals.total| > 5/100 ∧
    (_validate docC7cex).errors = [] := by
  decide

/-- C7 (amended): in mode `none`, an item with positive VAT amount records
an error, and — when both declared subtotal and total are nonzero — a
subtotal/total difference beyond 0.05 records an error. -/
theorem none_mode_checks (doc : UPDDocument) (h : doc.vat.vat_mode = "none") :
    ((∃ i ∈ doc.items, 0 < i.vat_amount) →
      VMsg.noneModeVat (doc.items.filter fun i => decide (0 < i.vat_amount)).length ∈
        (_validate doc).errors) ∧
    (doc.totals.subtotal ≠ 0 → doc.totals.total ≠ 0 →
      |doc.totals.subtotal - doc.totals.total| > 5/100 →
      VMsg.noneModeTotals doc.totals.subtotal doc.totals.total ∈ (_validate doc).errors) := by
  constructor
  · rintro ⟨x, hx, hpos⟩
    show _ ∈ (_validate doc).errors
    simp only [_validate]
    apply List.mem_append_right
    rw [if_pos h]
    unfold noneModeErrors
    apply List.mem_append_left
    have hmem : x ∈ doc.items.filter fun i => decide (0 < i.vat_amount) :=
      List.mem_filter.mpr ⟨hx, decide_eq_true hpos⟩
    rw [if_pos (by
      intro h0
      exact absurd hmem (by rw [List.length_eq_zero.mp h0]; exact List.not_mem_nil x))]
    exact List.mem_singleton.mpr rfl
  · intro hs ht hgt
    show _ ∈ (_validate doc).errors
    simp only [_validate]
    apply List.mem_append_right
    rw [if_pos h]
    unfold noneModeErrors
    apply List.mem_append_right
    rw [if_pos ⟨hs, ht, hgt⟩]
    exact List.mem_singleton.mpr rfl

/-- Witness for C7's amended claim at a concrete mode-`none` document. -/
theorem none_mode_checks_witness :
    VMsg.noneModeVat (docC7wit.items.filter fun i => decide (0 < i.vat_amount)).length ∈
      (_validate docC7wit).errors ∧
    VMsg.noneModeTotals docC7wit.totals.subtotal docC7wit.totals.total ∈
      (_validate docC7wit).errors :=
  ⟨(none_mode_checks docC7wit (by decide)).1 (by decide),
   (none_mode_checks docC7wit (by decide)).2 (by decide) (by decide) (by decide)⟩

/-- Every error `_validate` can record is one of the five error
constructors — in particular never a per-item `itemMath` message. -/
theorem errors_shape (doc : UPDDocument) (m : VMsg) (hm : m ∈ (_validate doc).errors) :
    (∃ a b c, m = .sumSubtotal a b c) ∨ (∃ a b c, m = .sumVat a b c) ∨
    (∃ a b c, m = .sumTotal a b c) ∨ (∃ n, m = .noneModeVat n) ∨
    (∃ a b, m = .noneModeTotals a b) := by
  simp only [_validate] at hm
  rcases List.mem_append.mp hm with hm1 | hD
  · rcases List.mem_append.mp hm1 with hm2 | hC
    · rcases List.mem_append.mp hm2 with hA | hB
      · unfold sumSubtotalErrors at hA
        split at hA
        · exact Or.inl ⟨_, _, _, List.mem_singleton.mp hA⟩
        · exact absurd hA (List.not_mem_nil m)
      · unfold sumVatErrors at hB
        split at hB
        · exact Or.inr (Or.inl ⟨_, _, _, List.mem_singleton.mp hB⟩)
        · exact absurd hB (List.not_mem_nil m)
    · unfold sumTotalErrors at hC
      split at hC
      · exact Or.inr (Or.inr (Or.inl ⟨_, _, _, List.mem_singleton.mp hC⟩))
      · exact absurd hC (List.not_mem_nil m)
  · split at hD
    · unfold noneModeErrors at hD
      rcases List.mem_append.mp hD with hE | hF
      · split at hE
        · exact Or.inr (Or.inr (Or.inr (Or.inl ⟨_, List.mem_singleton.mp hE⟩)))
        · exact absurd hE (List.not_mem_nil m)
      · split at hF
        · exact Or.inr (Or.inr (Or.inr (Or.inr ⟨_, _, List.mem_singleton.mp hF⟩)))
        · exact absurd hF (List.not_mem_nil m)
    · exact absurd hD (List.not_mem_nil m)

/-- C8 counterexample: an item whose `quantity × unit_price` deviates from
its subtotal by 5 (> 0.02), yet — quantity and price being zero — the
validator records no warning for it (and no message at all). -/
theorem item_math_warning_cex :
    (∃ i ∈ docC8cex.items, |i.quantity * i.unit_price - i.subtotal| > 2/100) ∧
    (_validate docC8cex).warnings = [] ∧ (_validate docC8cex).errors = [] := by
  decide

/-- C8 (amended): for every item with nonzero quantity and nonzero unit
price whose `quantity × unit_price` deviates from its subtotal by more than
0.02, the validator records a warning for that item; and no per-item math
message is ever recorded as an error. -/
theorem item_math_warning :
    (∀ (doc : UPDDocument) (item : LineItem), item ∈ doc.items →
      item.quantity ≠ 0 → item.unit_price ≠ 0 →
      |item.quantity * item.unit_price - item.subtotal| > 2/100 →
      VMsg.itemMath item.row_number item.product_code (item.quantity * item.unit_price)
        item.subtotal |item.quantity * item.unit_price - item.subtotal| ∈
        (_validate doc).warnings) ∧
    (∀ (doc : UPDDocument) (m : VMsg), m ∈ (_validate doc).errors →
      ∀ (r : ℕ) (c : String) (e s d : ℚ), m ≠ VMsg.itemMath r c e s d) := by
  constructor
  · intro doc item hmem hq hp hd
    show _ ∈ (_validate doc).warnings
    simp only [_validate]
    apply List.mem_append_left
    apply List.mem_append_left
    apply List.mem_append_left
    unfold itemMathWarnings
    apply List.mem_filterMap.mpr
    refine ⟨item, hmem, ?_⟩
    rw [if_pos ⟨hq, hp, hd⟩]
  · intro doc m hm r c e s d
    rcases errors_shape doc m hm with ⟨a, b, q, h⟩ | ⟨a, b, q, h⟩ | ⟨a, b, q, h⟩ | ⟨n, h⟩ | ⟨a, b, h⟩ <;>
      (subst h; exact fun hh => VMsg.noConfusion hh)

/-- Witness for C8's amended claim at a concrete item. -/
theorem item_math_warning_witness :
    VMsg.itemMath itemC8wit.row_number itemC8wit.product_code
      (itemC8wit.quantity * itemC8wit.unit_price) itemC8wit.subtotal
      |itemC8wit.quantity * itemC8wit.unit_price - itemC8wit.subtotal| ∈
      (_validate docC8wit).warnings :=
  item_math_warning.1 docC8wit itemC8wit (by decide) (by decide) (by decide) (by decide)

/-- C5: when the cleaned row-number cell has no digits (absent or
non-numeric), the parsed item's `row_number` is exactly the fallback passed
in; and the cross-page accumulation loop, run on two pages with 3 and 2
number-less data rows, numbers the items 1–5 in page order. -/
theorem row_number_fallback :
    (∀ (row : Row) (n : ℕ) (item : LineItem),
      (_clean ((_normalize_row row).getD 1 "")).toList.filter Char.isDigit = [] →
      _parse_line_item row n = some item → item.row_number = n) ∧
    (collectItems pagesC5).1.map (·.row_number) = [1, 2, 3, 4, 5] := by
  refine ⟨?_, by decide⟩
  intro row n item hds hparse
  simp only [_parse_line_item] at hparse
  split_ifs at hparse with hc1 hc2 <;> rw [← Option.some.inj hparse]

/-- Witness for C5's fallback clause at a concrete number-less row. -/
theorem row_number_fallback_witness :
    _parse_line_item dataRow 7 = some itemFallback7 ∧ itemFallback7.row_number = 7 :=
  ⟨by decide, row_number_fallback.1 dataRow 7 itemFallback7 (by decide) (by decide)⟩
